import Mathlib

/-!
Shallow embedding of `src/static/js/main.js` of DocFlowAssistant: the
client-side upload/classification workflow, the dashboard chart rebuild
logic and the chat widget, modelled as pure state-transition functions.

DOM mutations become field updates of an explicit `UIState`; each handler
additionally returns the list of HTTP requests it issues, so that
"no network request is issued" is the statement that this list is empty.
Asynchronous `fetch(...).then(...)` chains are split at the network
boundary: one function performs the work up to the request, a second
function embeds the `.then`/`.catch` continuation applied to the response.
Numbers (`confidence`) are modelled as rationals.
-/

/-- A file as seen by `handleFile`: its MIME `type` string and its `size`
in bytes. -/
structure UploadFile where
  mimeType : String
  size : Nat
deriving Repr, DecidableEq

/-- An HTTP request issued via `fetch`: target URL and method. -/
structure Request where
  url : String
  method : String
deriving Repr, DecidableEq

/-- The DOM state touched by the upload workflow: visibility of the four
sections, the error message text, the file input control value, the stored
`currentDocumentId`, the progress bar, and the rendered result fields. -/
structure UIState where
  uploadVisible : Bool
  processingVisible : Bool
  resultsVisible : Bool
  errorVisible : Bool
  errorMessage : String
  fileInputValue : String
  currentDocumentId : Option String
  progressPercent : Nat
  processingStatus : String
  documentTypeText : String
  confidenceBadgeClass : String
  confidencePercentText : String
  routedToText : String
  extractedTextHTML : String
deriving Repr, DecidableEq

/-- `allowedTypes` from `handleFile` (main.js line 107). -/
def allowedTypes : List String :=
  ["application/pdf",
   "application/vnd.openxmlformats-officedocument.wordprocessingml.document",
   "image/jpeg", "image/jpg", "image/png"]

/-- The type-rejection message (main.js line 109). -/
def invalidTypeMsg : String :=
  "Invalid file type. Please upload PDF, DOCX, JPG, or PNG files."

/-- The size-rejection message (main.js line 115). -/
def fileTooLargeMsg : String :=
  "File too large. Maximum size is 16MB."

/-- `hideAllSections` (main.js lines 319-323): hides the processing,
results and error sections. It does not touch the upload area. -/
def hideAllSections (st : UIState) : UIState :=
  { st with processingVisible := false, resultsVisible := false, errorVisible := false }

/-- `showError` (main.js lines 325-334): hide all sections, show the error
section, set the error message text. -/
def showError (message : String) (st : UIState) : UIState :=
  let st1 := hideAllSections st
  { st1 with errorVisible := true, errorMessage := message }

/-- `updateProgress` (main.js lines 302-316): sets the progress bar width
and the status text. -/
def updateProgress (percent : Nat) (message : String) (st : UIState) : UIState :=
  { st with progressPercent := percent, processingStatus := message }

/-- `resetUploadForm` (main.js lines 336-346): hide all sections, clear the
file input value, null the stored document id, show the upload section. -/
def resetUploadForm (st : UIState) : UIState :=
  let st1 := hideAllSections st
  { st1 with fileInputValue := "", currentDocumentId := none, uploadVisible := true }

/-- The synchronous part of `uploadFile` (main.js lines 122-134): show the
processing section, set progress to 10, and issue `POST /upload`. -/
def uploadFile (st : UIState) : UIState × List Request :=
  let st1 := hideAllSections st
  let st2 := { st1 with processingVisible := true }
  (updateProgress 10 "Uploading file..." st2, [⟨"/upload", "POST"⟩])

/-- `handleFile` (main.js lines 105-120): reject a MIME type outside
`allowedTypes`, then reject size over 16 MiB, else start the upload. -/
def handleFile (f : UploadFile) (st : UIState) : UIState × List Request :=
  if allowedTypes.contains f.mimeType = false then
    (showError invalidTypeMsg st, [])
  else if 16 * 1024 * 1024 < f.size then
    (showError fileTooLargeMsg st, [])
  else
    uploadFile st

/-- The JSON body of a `/upload` response as the code reads it.  A missing
or empty `document_id` is modelled by the empty string, which is exactly
the falsy case tested by `processDocument`. -/
structure UploadResponse where
  success : Bool
  document_id : String
  error : Option String
deriving Repr, DecidableEq

/-- The synchronous part of `processDocument` (main.js lines 195-211):
a falsy (empty) document id shows an error and issues nothing; otherwise
set progress to 50 and issue `POST /process/<id>`. -/
def processDocument (documentId : String) (st : UIState) : UIState × List Request :=
  if documentId = "" then
    (showError "No document ID provided" st, [])
  else
    (updateProgress 50 "Extracting text using OCR..." st,
     [⟨"/process/" ++ documentId, "POST"⟩])

/-- The `.then`/`.catch` continuation of the `/upload` fetch in
`uploadFile` (main.js lines 135-148): on `success`, store the document id
in `currentDocumentId`, set progress to 30 and call `processDocument`;
otherwise show `Upload failed: <error>`. -/
def uploadThen (data : UploadResponse) (st : UIState) : UIState × List Request :=
  if data.success then
    let st1 := { st with currentDocumentId := some data.document_id }
    let st2 := updateProgress 30 "File uploaded successfully. Starting processing..." st1
    processDocument data.document_id st2
  else
    (showError ("Upload failed: " ++ data.error.getD "Upload failed") st, [])

/-- The `classification` record of a `/process` response; both fields may
be absent. -/
structure Classification where
  ctype : Option String
  confidence : Option ℚ
deriving Repr, DecidableEq

/-- The `routing` record of a `/process` response. -/
structure Routing where
  department : Option String
deriving Repr, DecidableEq

/-- The JSON body of a `/process` response as the code reads it. -/
structure ProcessResponse where
  success : Bool
  classification : Option Classification
  routing : Option Routing
  extracted_text : Option String
  error : Option String
deriving Repr, DecidableEq

/-- JavaScript `a || b` on an optional string: falls back when the value
is absent or the empty string (both falsy). -/
def jsOrString (v : Option String) (fallback : String) : String :=
  match v with
  | none => fallback
  | some s => if s = "" then fallback else s

/-- `getConfidenceBadgeClass` (main.js lines 296-300). -/
def getConfidenceBadgeClass (confidence : ℚ) : String :=
  if confidence ≥ 0.8 then "success"
  else if confidence ≥ 0.6 then "warning"
  else "danger"

/-- JavaScript `Math.round`: round half toward positive infinity. -/
def jsRound (q : ℚ) : ℤ := Int.floor (q + 1/2)

/-- `showResults` (main.js lines 230-258): show the results section and
render the classification fields with fallbacks (`|| 'Not classified'`,
`?? 0`, `|| 'Unassigned'`, `|| '[No text extracted]'`). -/
def showResults (data : ProcessResponse) (st : UIState) : UIState :=
  let st1 := hideAllSections st
  let st2 := { st1 with resultsVisible := true }
  let docType := jsOrString (data.classification.bind Classification.ctype) "Not classified"
  let confidence := (data.classification.bind Classification.confidence).getD 0
  let routedTo := jsOrString (data.routing.bind Routing.department) "Unassigned"
  { st2 with
    documentTypeText := docType
    confidenceBadgeClass := getConfidenceBadgeClass confidence
    confidencePercentText := toString (jsRound (confidence * 100)) ++ "%"
    routedToText := routedTo
    extractedTextHTML :=
      "<pre class=\"text-wrap\">" ++ jsOrString data.extracted_text "[No text extracted]" ++ "</pre>" }

/-- The `.then`/`.catch` continuation of the `/process` fetch in
`processDocument` (main.js lines 212-227): on `success`, progress 80 then
100 and `showResults`; otherwise show `Processing failed: <error>`. -/
def processThen (data : ProcessResponse) (st : UIState) : UIState :=
  if data.success then
    let st1 := updateProgress 80 "Classifying document..." st
    let st2 := updateProgress 100 "Processing complete!" st1
    showResults data st2
  else
    showError ("Processing failed: " ++ data.error.getD "Processing failed") st

/-- Modelled from the spec: the initial page markup (the HTML templates are
not among the sources) renders the workflow in the Idle state — the upload
area visible, the processing, results and error sections hidden, no stored
document reference, empty input — per "UI visibility state: one-of
{idle, uploading/processing, results, error}" with Idle at load. -/
def initState : UIState :=
  { uploadVisible := true
    processingVisible := false
    resultsVisible := false
    errorVisible := false
    errorMessage := ""
    fileInputValue := ""
    currentDocumentId := none
    progressPercent := 0
    processingStatus := ""
    documentTypeText := ""
    confidenceBadgeClass := ""
    confidencePercentText := ""
    routedToText := ""
    extractedTextHTML := "" }

/-- The UI states reachable by the upload workflow: the initial state,
closed under file selection (`handleFile`), upload-response handling,
process-response handling, and reset. -/
inductive Reachable : UIState → Prop
  | init : Reachable initState
  | handle (f : UploadFile) {st : UIState} :
      Reachable st → Reachable (handleFile f st).1
  | uploadResp (d : UploadResponse) {st : UIState} :
      Reachable st → Reachable (uploadThen d st).1
  | processResp (d : ProcessResponse) {st : UIState} :
      Reachable st → Reachable (processThen d st)
  | reset {st : UIState} :
      Reachable st → Reachable (resetUploadForm st)

/-- Number of visible sections among the four of the spec's UI visibility
state: idle upload area, uploading/processing, results, error. -/
def visibleCount (st : UIState) : Nat :=
  (if st.uploadVisible then 1 else 0) + (if st.processingVisible then 1 else 0)
    + (if st.resultsVisible then 1 else 0) + (if st.errorVisible then 1 else 0)

/-- Number of visible sections among the three managed by
`hideAllSections`: uploading/processing, results, error. -/
def managedCount (st : UIState) : Nat :=
  (if st.processingVisible then 1 else 0) + (if st.resultsVisible then 1 else 0)
    + (if st.errorVisible then 1 else 0)

/-- The analytics chart handle state: `typeChart` (main.js line 3) holds
the current instance id, `live` the ids of constructed and not yet
destroyed instances, `nextId` a fresh id supply. -/
structure ChartState where
  typeChart : Option Nat
  live : List Nat
  nextId : Nat
deriving Repr, DecidableEq

/-- The chart state at page load: `let typeChart = null`, no instance
constructed yet. -/
def chartInit : ChartState := { typeChart := none, live := [], nextId := 0 }

/-- `updateTypeChart` (main.js lines 484-516): return unchanged when the
canvas element is absent; otherwise destroy the prior chart instance, if
any, then construct a new one and store it in `typeChart`.  The
distribution argument only feeds the chart data and is irrelevant to
instance accounting. -/
def updateTypeChart (ctxPresent : Bool) (_typeDistribution : List (String × Nat))
    (st : ChartState) : ChartState :=
  if ctxPresent then
    let live1 := match st.typeChart with
      | some c => st.live.erase c
      | none => st.live
    { typeChart := some st.nextId, live := live1 ++ [st.nextId], nextId := st.nextId + 1 }
  else st

/-- Run a sequence of `updateTypeChart` calls from a chart state. -/
def runChartCalls (calls : List (Bool × List (String × Nat))) (st : ChartState) : ChartState :=
  calls.foldl (fun s c => updateTypeChart c.1 c.2 s) st

/-- The chart-handle invariant: the live instances are exactly the one
held in `typeChart`, when any. -/
def ChartInv (st : ChartState) : Prop := st.live = st.typeChart.toList

/-- The chat widget state: the transcript div contents (one entry per
appended `<div>`) and the input field value. -/
structure ChatState where
  transcript : List String
  inputValue : String
deriving Repr, DecidableEq

/-- The fetch outcome for the chat request: a fulfilled response body, or
a rejection. -/
inductive ChatOutcome where
  | ok (response : String)
  | failed
deriving Repr, DecidableEq

/-- JavaScript `String.prototype.trim`: strip leading and trailing
whitespace, embedded structurally over the character list. -/
def jsTrim (s : String) : String :=
  ⟨((s.data.dropWhile Char.isWhitespace).reverse.dropWhile Char.isWhitespace).reverse⟩

/-- The chat-input keypress listener (main.js lines 613-638): on Enter
with non-empty trimmed content, append the user line, clear the input, and
post to `/api/chatbot`; the continuation appends the bot reply, or the
fixed error line when the fetch rejects. -/
def chatKeypress (key : String) (outcome : ChatOutcome) (st : ChatState) :
    ChatState × List Request :=
  if key = "Enter" then
    let message := jsTrim st.inputValue
    if message = "" then (st, [])
    else
      let you := "<div><strong>You:</strong> " ++ message ++ "</div>"
      let bot := match outcome with
        | ChatOutcome.ok r => "<div><strong>Bot:</strong> " ++ r ++ "</div>"
        | ChatOutcome.failed => "<div><strong>Bot:</strong> Error processing your message.</div>"
      ({ transcript := st.transcript ++ [you, bot], inputValue := "" },
       [⟨"/api/chatbot", "POST"⟩])
  else (st, [])

/-! ## Helper lemmas -/

theorem managedCount_showError (m : String) (st : UIState) :
    managedCount (showError m st) = 1 := rfl

theorem managedCount_uploadFile (st : UIState) :
    managedCount (uploadFile st).1 = 1 := rfl

theorem managedCount_showResults (d : ProcessResponse) (st : UIState) :
    managedCount (showResults d st) = 1 := rfl

theorem managedCount_resetUploadForm (st : UIState) :
    managedCount (resetUploadForm st) = 0 := rfl

theorem uploadVisible_showError (m : String) (st : UIState) :
    (showError m st).uploadVisible = st.uploadVisible := rfl

theorem uploadVisible_uploadFile (st : UIState) :
    (uploadFile st).1.uploadVisible = st.uploadVisible := rfl

theorem uploadVisible_showResults (d : ProcessResponse) (st : UIState) :
    (showResults d st).uploadVisible = st.uploadVisible := rfl

/-! ## Claim theorems -/

/-- C1: a file whose MIME type is outside the allowed set is rejected by
`handleFile` with no network request and the type-rejection message shown
in the error panel. -/
theorem invalid_type_rejected_without_request (f : UploadFile) (st : UIState)
    (h : allowedTypes.contains f.mimeType = false) :
    (handleFile f st).2 = []
    ∧ (handleFile f st).1.errorVisible = true
    ∧ (handleFile f st).1.errorMessage = invalidTypeMsg := by
  unfold handleFile
  rw [h]
  simp [showError, hideAllSections]

/-- Witness for C1 at the concrete file `text/plain`, 5 bytes. -/
theorem invalid_type_rejected_without_request_witness :
    allowedTypes.contains "text/plain" = false
    ∧ ((handleFile ⟨"text/plain", 5⟩ initState).2 = []
       ∧ (handleFile ⟨"text/plain", 5⟩ initState).1.errorVisible = true
       ∧ (handleFile ⟨"text/plain", 5⟩ initState).1.errorMessage = invalidTypeMsg) :=
  ⟨by decide, invalid_type_rejected_without_request ⟨"text/plain", 5⟩ initState (by decide)⟩

/-- C2 counterexample: an oversize file whose MIME type is also invalid is
rejected with the type-rejection message, not the size-rejection message,
because `handleFile` checks the type first.  So the claim that every file
over 16 MiB makes the error panel show the size-rejection message is
false. -/
theorem oversize_message_counterexample :
    16 * 1024 * 1024 < (16 * 1024 * 1024 + 1 : Nat)
    ∧ (handleFile ⟨"text/plain", 16 * 1024 * 1024 + 1⟩ initState).2 = []
    ∧ (handleFile ⟨"text/plain", 16 * 1024 * 1024 + 1⟩ initState).1.errorMessage = invalidTypeMsg
    ∧ invalidTypeMsg ≠ fileTooLargeMsg := by
  refine ⟨by omega, ?_, ?_, by decide⟩ <;> decide

/-- C2 amended: every file over 16 MiB issues no network request; a file
with an allowed MIME type over 16 MiB shows the size-rejection message;
a file with an allowed MIME type of size at most 16 MiB passes validation
and the `POST /upload` request is issued. -/
theorem size_validation (f : UploadFile) (st : UIState) :
    (16 * 1024 * 1024 < f.size → (handleFile f st).2 = [])
    ∧ (allowedTypes.contains f.mimeType = true → 16 * 1024 * 1024 < f.size →
        (handleFile f st).1.errorVisible = true
        ∧ (handleFile f st).1.errorMessage = fileTooLargeMsg)
    ∧ (allowedTypes.contains f.mimeType = true → f.size ≤ 16 * 1024 * 1024 →
        (handleFile f st).2 = [⟨"/upload", "POST"⟩]
        ∧ (handleFile f st).1.processingVisible = true
        ∧ (handleFile f st).1.errorVisible = false) := by
  refine ⟨?_, ?_, ?_⟩
  · intro hsize
    unfold handleFile
    split
    · rfl
    · rfl
  · intro htype hsize
    have hmem : f.mimeType ∈ allowedTypes := by simpa using htype
    simp [handleFile, hmem, hsize, showError, hideAllSections]
  · intro htype hsize
    have hmem : f.mimeType ∈ allowedTypes := by simpa using htype
    simp [handleFile, hmem, Nat.not_lt.mpr hsize, uploadFile, updateProgress,
      hideAllSections]

/-- Witness for C2 amended: a 16 MiB + 1 byte PDF is rejected with the
size message; a 1000-byte PDF is uploaded. -/
theorem size_validation_witness :
    ((handleFile ⟨"application/pdf", 16 * 1024 * 1024 + 1⟩ initState).1.errorVisible = true
     ∧ (handleFile ⟨"application/pdf", 16 * 1024 * 1024 + 1⟩ initState).1.errorMessage
        = fileTooLargeMsg)
    ∧ ((handleFile ⟨"application/pdf", 1000⟩ initState).2 = [⟨"/upload", "POST"⟩]
       ∧ (handleFile ⟨"application/pdf", 1000⟩ initState).1.processingVisible = true
       ∧ (handleFile ⟨"application/pdf", 1000⟩ initState).1.errorVisible = false) :=
  ⟨(size_validation ⟨"application/pdf", 16 * 1024 * 1024 + 1⟩ initState).2.1
      (by decide) (by decide),
   (size_validation ⟨"application/pdf", 1000⟩ initState).2.2 (by decide) (by decide)⟩

/-- C3 counterexample: a successful upload response whose `document_id` is
the empty string stores the id but issues no process request at all —
`processDocument` treats the falsy id as missing and shows an error — so
the claim that every success response with `document_id = X` leads to a
`POST /process/X` request is false at `X = ""`. -/
theorem empty_document_id_counterexample :
    (uploadThen ⟨true, "", none⟩ initState).1.currentDocumentId = some ""
    ∧ (uploadThen ⟨true, "", none⟩ initState).2 = []
    ∧ (uploadThen ⟨true, "", none⟩ initState).1.errorVisible = true
    ∧ (uploadThen ⟨true, "", none⟩ initState).1.errorMessage = "No document ID provided" := by
  refine ⟨?_, ?_, ?_, ?_⟩ <;> decide

/-- C3 amended: for a successful upload response with a non-empty
`document_id = X`, the controller stores `X` as the current document
reference and issues exactly the request `POST /process/X`. -/
theorem upload_success_targets_process_url (d : UploadResponse) (st : UIState)
    (hs : d.success = true) (hid : d.document_id ≠ "") :
    (uploadThen d st).1.currentDocumentId = some d.document_id
    ∧ (uploadThen d st).2 = [⟨"/process/" ++ d.document_id, "POST"⟩] := by
  simp [uploadThen, hs, processDocument, hid, updateProgress]

/-- Witness for C3 amended at `document_id = "doc42"`. -/
theorem upload_success_targets_process_url_witness :
    (uploadThen ⟨true, "doc42", none⟩ initState).1.currentDocumentId = some "doc42"
    ∧ (uploadThen ⟨true, "doc42", none⟩ initState).2 = [⟨"/process/doc42", "POST"⟩] :=
  upload_success_targets_process_url ⟨true, "doc42", none⟩ initState (by decide) (by decide)

/-- C4: the confidence badge rendered by `showResults` shows
`Math.round(confidence * 100)` percent, styled by the 0.8/0.6 thresholds
of `getConfidenceBadgeClass`; in particular 0.85 renders "85%" with the
`success` style, 0.65 renders "65%" with `warning`, 0.3 renders "30%"
with `danger`. -/
theorem confidence_badge_rendering (c : ℚ) (success : Bool) (ty : Option String)
    (rout : Option Routing) (ext err : Option String) (st : UIState) :
    (showResults ⟨success, some ⟨ty, some c⟩, rout, ext, err⟩ st).confidencePercentText
      = toString (jsRound (c * 100)) ++ "%"
    ∧ (showResults ⟨success, some ⟨ty, some c⟩, rout, ext, err⟩ st).confidenceBadgeClass
      = (if c ≥ 0.8 then "success" else if c ≥ 0.6 then "warning" else "danger")
    ∧ (c = 0.85 →
        (showResults ⟨success, some ⟨ty, some c⟩, rout, ext, err⟩ st).confidencePercentText
          = "85%"
        ∧ (showResults ⟨success, some ⟨ty, some c⟩, rout, ext, err⟩ st).confidenceBadgeClass
          = "success")
    ∧ (c = 0.65 →
        (showResults ⟨success, some ⟨ty, some c⟩, rout, ext, err⟩ st).confidencePercentText
          = "65%"
        ∧ (showResults ⟨success, some ⟨ty, some c⟩, rout, ext, err⟩ st).confidenceBadgeClass
          = "warning")
    ∧ (c = 0.3 →
        (showResults ⟨success, some ⟨ty, some c⟩, rout, ext, err⟩ st).confidencePercentText
          = "30%"
        ∧ (showResults ⟨success, some ⟨ty, some c⟩, rout, ext, err⟩ st).confidenceBadgeClass
          = "danger") := by
  refine ⟨by simp [showResults], by simp [showResults, getConfidenceBadgeClass], ?_, ?_, ?_⟩
  · rintro rfl
    have h : jsRound ((0.85 : ℚ) * 100) = 85 := by norm_num [jsRound]
    constructor
    · simp [showResults, h]
      decide
    · norm_num [showResults, getConfidenceBadgeClass]
  · rintro rfl
    have h : jsRound ((0.65 : ℚ) * 100) = 65 := by norm_num [jsRound]
    constructor
    · simp [showResults, h]
      decide
    · norm_num [showResults, getConfidenceBadgeClass]
  · rintro rfl
    have h : jsRound ((0.3 : ℚ) * 100) = 30 := by norm_num [jsRound]
    constructor
    · simp [showResults, h]
      decide
    · norm_num [showResults, getConfidenceBadgeClass]

/-- Witness for C4 at confidence 0.85, 0.65 and 0.3. -/
theorem confidence_badge_rendering_witness :
    ((showResults ⟨true, some ⟨some "Invoice", some 0.85⟩, none, none, none⟩
        initState).confidencePercentText = "85%"
     ∧ (showResults ⟨true, some ⟨some "Invoice", some 0.85⟩, none, none, none⟩
        initState).confidenceBadgeClass = "success")
    ∧ ((showResults ⟨true, some ⟨some "Invoice", some 0.65⟩, none, none, none⟩
        initState).confidencePercentText = "65%"
       ∧ (showResults ⟨true, some ⟨some "Invoice", some 0.65⟩, none, none, none⟩
        initState).confidenceBadgeClass = "warning")
    ∧ ((showResults ⟨true, some ⟨some "Invoice", some 0.3⟩, none, none, none⟩
        initState).confidencePercentText = "30%"
       ∧ (showResults ⟨true, some ⟨some "Invoice", some 0.3⟩, none, none, none⟩
        initState).confidenceBadgeClass = "danger") :=
  ⟨(confidence_badge_rendering 0.85 true (some "Invoice") none none none initState).2.2.1 rfl,
   (confidence_badge_rendering 0.65 true (some "Invoice") none none none initState).2.2.2.1 rfl,
   (confidence_badge_rendering 0.3 true (some "Invoice") none none none initState).2.2.2.2 rfl⟩

/-- C5 counterexample: after a reset followed by a valid file selection,
both the idle upload area and the uploading/processing section are
visible — two of the four sections at once — because `hideAllSections`
never hides the upload area.  So the claim that exactly one section is
visible at every reachable point is false. -/
theorem exactly_one_visible_counterexample :
    Reachable (handleFile ⟨"application/pdf", 4⟩ (resetUploadForm initState)).1
    ∧ visibleCount (handleFile ⟨"application/pdf", 4⟩ (resetUploadForm initState)).1 = 2 := by
  constructor
  · exact Reachable.handle _ (Reachable.reset Reachable.init)
  · decide

/-- C5 amended: at every reachable point of the workflow, at most one of
the three sections managed by `hideAllSections` (uploading/processing,
results, error) is visible, and the idle upload area is always visible
(the code never hides it), so exactly one of the four sections is visible
only in the Idle state. -/
theorem at_most_one_managed_visible (st : UIState) (h : Reachable st) :
    managedCount st ≤ 1 ∧ st.uploadVisible = true := by
  induction h with
  | init => exact ⟨by decide, rfl⟩
  | handle f h ih =>
      simp only [handleFile]
      split
      · exact ⟨Nat.le.refl, ih.2⟩
      · split <;> exact ⟨Nat.le.refl, ih.2⟩
  | uploadResp d h ih =>
      simp only [uploadThen]
      split
      · simp only [processDocument]
        split
        · exact ⟨Nat.le.refl, ih.2⟩
        · exact ⟨ih.1, ih.2⟩
      · exact ⟨Nat.le.refl, ih.2⟩
  | processResp d h ih =>
      simp only [processThen]
      split
      · exact ⟨Nat.le.refl, ih.2⟩
      · exact ⟨Nat.le.refl, ih.2⟩
  | reset h ih => exact ⟨Nat.zero_le 1, rfl⟩

/-- Witness for C5 amended at the initial state. -/
theorem at_most_one_managed_visible_witness :
    managedCount initState ≤ 1 ∧ initState.uploadVisible = true :=
  at_most_one_managed_visible initState Reachable.init

/-- C6: `resetUploadForm` unconditionally returns to Idle from any state —
upload area visible, the three other sections hidden — nulls the stored
document reference and clears the file input value; a subsequent
successful upload stores the fresh server-issued id, not the old one. -/
theorem reset_returns_to_idle (st : UIState) (x : String) (e : Option String) :
    (resetUploadForm st).currentDocumentId = none
    ∧ (resetUploadForm st).fileInputValue = ""
    ∧ (resetUploadForm st).uploadVisible = true
    ∧ (resetUploadForm st).processingVisible = false
    ∧ (resetUploadForm st).resultsVisible = false
    ∧ (resetUploadForm st).errorVisible = false
    ∧ (uploadThen ⟨true, x, e⟩ (resetUploadForm st)).1.currentDocumentId = some x := by
  refine ⟨rfl, rfl, rfl, rfl, rfl, rfl, ?_⟩
  by_cases hx : x = "" <;>
    simp [uploadThen, processDocument, hx, updateProgress, showError, hideAllSections,
      resetUploadForm]

/-- C7 counterexample: an upload attempt whose response reports failure
does not replace the previously stored document reference — it stays at
the old value — so the claim that every upload attempt replaces the
stored reference is false. -/
theorem failed_upload_keeps_old_reference :
    (uploadThen ⟨false, "new-doc", none⟩
        { initState with currentDocumentId := some "old-doc" }).1.currentDocumentId
      = some "old-doc"
    ∧ "old-doc" ≠ "new-doc" := by
  exact ⟨rfl, by decide⟩

/-- C7 amended: the stored document reference is overwritten on each
successful upload response, left unchanged by a failed upload response,
and cleared on reset. -/
theorem document_reference_lifecycle (x : String) (e : Option String) (st : UIState) :
    (uploadThen ⟨true, x, e⟩ st).1.currentDocumentId = some x
    ∧ (uploadThen ⟨false, x, e⟩ st).1.currentDocumentId = st.currentDocumentId
    ∧ (resetUploadForm st).currentDocumentId = none := by
  refine ⟨?_, rfl, rfl⟩
  by_cases hx : x = "" <;>
    simp [uploadThen, processDocument, hx, updateProgress, showError, hideAllSections]

/-- C8: for every `/process` response with `success` true, the workflow
advances to the Results section, and absent fields render their
fallbacks: missing `classification.type` renders "Not classified",
missing `classification.confidence` renders as 0 ("0%"), missing
`routing.department` renders "Unassigned", and missing `extracted_text`
renders "[No text extracted]". -/
theorem process_success_renders_fallbacks (d : ProcessResponse) (st : UIState)
    (hs : d.success = true) :
    (processThen d st).resultsVisible = true
    ∧ (processThen d st).processingVisible = false
    ∧ (processThen d st).errorVisible = false
    ∧ (d.classification.bind Classification.ctype = none →
        (processThen d st).documentTypeText = "Not classified")
    ∧ (d.classification.bind Classification.confidence = none →
        (processThen d st).confidencePercentText = "0%"
        ∧ (processThen d st).confidenceBadgeClass = "danger")
    ∧ (d.routing.bind Routing.department = none →
        (processThen d st).routedToText = "Unassigned")
    ∧ (d.extracted_text = none →
        (processThen d st).extractedTextHTML
          = "<pre class=\"text-wrap\">[No text extracted]</pre>") := by
  refine ⟨?_, ?_, ?_, ?_, ?_, ?_, ?_⟩
  · simp [processThen, hs, showResults, updateProgress]
  · simp [processThen, hs, showResults, updateProgress, hideAllSections]
  · simp [processThen, hs, showResults, updateProgress, hideAllSections]
  · intro hc
    simp [processThen, hs, showResults, updateProgress, hc, jsOrString]
  · intro hc
    have h0 : jsRound 0 = 0 := by norm_num [jsRound]
    constructor
    · simp [processThen, hs, showResults, updateProgress, hc, h0]
      decide
    · norm_num [processThen, hs, showResults, updateProgress, hc, getConfidenceBadgeClass]
  · intro hc
    simp [processThen, hs, showResults, updateProgress, hc, jsOrString]
  · intro hc
    simp [processThen, hs, showResults, updateProgress, hc, jsOrString]

/-- Witness for C8 at the response with all optional fields absent. -/
theorem process_success_renders_fallbacks_witness :
    (processThen ⟨true, none, none, none, none⟩ initState).resultsVisible = true
    ∧ (processThen ⟨true, none, none, none, none⟩ initState).documentTypeText
        = "Not classified"
    ∧ (processThen ⟨true, none, none, none, none⟩ initState).confidencePercentText = "0%"
    ∧ (processThen ⟨true, none, none, none, none⟩ initState).confidenceBadgeClass = "danger"
    ∧ (processThen ⟨true, none, none, none, none⟩ initState).routedToText = "Unassigned"
    ∧ (processThen ⟨true, none, none, none, none⟩ initState).extractedTextHTML
        = "<pre class=\"text-wrap\">[No text extracted]</pre>" := by
  have h := process_success_renders_fallbacks ⟨true, none, none, none, none⟩ initState rfl
  exact ⟨h.1, h.2.2.2.1 rfl, (h.2.2.2.2.1 rfl).1, (h.2.2.2.2.1 rfl).2,
    h.2.2.2.2.2.1 rfl, h.2.2.2.2.2.2 rfl⟩

/-- Each `updateTypeChart` call preserves the chart-handle invariant. -/
theorem chartInv_update (b : Bool) (d : List (String × Nat)) (st : ChartState)
    (h : ChartInv st) : ChartInv (updateTypeChart b d st) := by
  unfold ChartInv at h ⊢
  unfold updateTypeChart
  split
  · cases hc : st.typeChart with
    | none =>
        rw [hc] at h
        simp at h
        simp [hc, h]
    | some c =>
        rw [hc] at h
        simp at h
        simp [hc, h]
  · exact h

/-- Any sequence of `updateTypeChart` calls preserves the chart-handle
invariant. -/
theorem chartInv_run (calls : List (Bool × List (String × Nat))) (st : ChartState)
    (h : ChartInv st) : ChartInv (runChartCalls calls st) := by
  induction calls generalizing st with
  | nil => exact h
  | cons c cs ih => exact ih (updateTypeChart c.1 c.2 st) (chartInv_update c.1 c.2 st h)

/-- C9: after any sequence of `updateTypeChart` calls from page load, at
most one chart instance is live (each rebuild destroys the prior instance
before constructing the new one), and two successive rebuilds with the
canvas present leave exactly one live instance. -/
theorem chart_at_most_one_instance (calls : List (Bool × List (String × Nat)))
    (d1 d2 : List (String × Nat)) :
    (runChartCalls calls chartInit).live.length ≤ 1
    ∧ (updateTypeChart true d2 (updateTypeChart true d1 chartInit)).live.length = 1 := by
  constructor
  · have h := chartInv_run calls chartInit rfl
    rw [ChartInv] at h
    rw [h]
    cases (runChartCalls calls chartInit).typeChart <;> simp
  · rfl

/-- C10: an Enter keypress in the chat input with non-empty trimmed
content appends the trimmed message to the transcript, clears the input
and posts to `/api/chatbot`; the reply is appended on success and the
fixed error line on failure; an empty or whitespace-only input produces
no request and no change. -/
theorem chat_enter_transcript (key : String) (outcome : ChatOutcome) (st : ChatState) :
    (jsTrim st.inputValue = "" → chatKeypress key outcome st = (st, []))
    ∧ (key = "Enter" → jsTrim st.inputValue ≠ "" →
        (chatKeypress key outcome st).2 = [⟨"/api/chatbot", "POST"⟩]
        ∧ (chatKeypress key outcome st).1.inputValue = ""
        ∧ (∀ r, outcome = ChatOutcome.ok r →
            (chatKeypress key outcome st).1.transcript
              = st.transcript
                ++ ["<div><strong>You:</strong> " ++ jsTrim st.inputValue ++ "</div>",
                    "<div><strong>Bot:</strong> " ++ r ++ "</div>"])
        ∧ (outcome = ChatOutcome.failed →
            (chatKeypress key outcome st).1.transcript
              = st.transcript
                ++ ["<div><strong>You:</strong> " ++ jsTrim st.inputValue ++ "</div>",
                    "<div><strong>Bot:</strong> Error processing your message.</div>"])) := by
  constructor
  · intro h0
    by_cases hk : key = "Enter"
    · simp [chatKeypress, hk, h0]
    · simp [chatKeypress, hk]
  · rintro rfl hne
    refine ⟨?_, ?_, ?_, ?_⟩
    · cases outcome <;> simp [chatKeypress, hne]
    · cases outcome <;> simp [chatKeypress, hne]
    · rintro r rfl
      simp [chatKeypress, hne]
    · rintro rfl
      simp [chatKeypress, hne]

/-- Witness for C10: a whitespace-only input does nothing; " q " with a
successful reply "hi" appends both lines, clears the input and posts to
the chat endpoint. -/
theorem chat_enter_transcript_witness :
    (chatKeypress "Enter" ChatOutcome.failed ⟨["old"], "   "⟩ = (⟨["old"], "   "⟩, []))
    ∧ ((chatKeypress "Enter" (ChatOutcome.ok "hi") ⟨[], " q "⟩).2
        = [⟨"/api/chatbot", "POST"⟩]
       ∧ (chatKeypress "Enter" (ChatOutcome.ok "hi") ⟨[], " q "⟩).1.inputValue = ""
       ∧ (chatKeypress "Enter" (ChatOutcome.ok "hi") ⟨[], " q "⟩).1.transcript
          = ["<div><strong>You:</strong> q</div>", "<div><strong>Bot:</strong> hi</div>"]) := by
  refine ⟨(chat_enter_transcript "Enter" ChatOutcome.failed ⟨["old"], "   "⟩).1 (by decide),
    ?_, ?_, ?_⟩
  · exact ((chat_enter_transcript "Enter" (ChatOutcome.ok "hi") ⟨[], " q "⟩).2 rfl
      (by decide)).1
  · exact ((chat_enter_transcript "Enter" (ChatOutcome.ok "hi") ⟨[], " q "⟩).2 rfl
      (by decide)).2.1
  · exact ((chat_enter_transcript "Enter" (ChatOutcome.ok "hi") ⟨[], " q "⟩).2 rfl
      (by decide)).2.2.1 "hi" rfl
